import Mathlib

/-!
Shallow embedding of the OnyLogger Go package (Onyz107/OnyLogger):
leveled log formatting, global flags, stdin readers, spinner, and the
bubbletea option selector.  Definitions mirror the Go source; time is
modelled by passing the formatted timestamp string explicitly, and
printed output is modelled as the `String` handed to the printing call
(`Option String`, `none` when nothing is printed).
-/

namespace OnyLogger

/-- The three process-wide flags of the package:
`DebugEnabled`, `ColorsEnabled`, `SuppressOutput`. -/
structure Config where
  DebugEnabled : Bool
  ColorsEnabled : Bool
  SuppressOutput : Bool
deriving DecidableEq, Repr

def colorReset : String := "\x1b[0m"

def colorMagenta : String := "\x1b[35m"

def colorYellow : String := "\x1b[33m"

def colorRed : String := "\x1b[31m"

def colorCyan : String := "\x1b[36m"

def colorGreen : String := "\x1b[32m"

def emojiInfo : String := "📜"

def emojiWarning : String := "⚠️"

def emojiError : String := "❌"

def emojiDebug : String := "🐛"

def emojiSuccess : String := "✅"

def emojiLoading : String := "⏳"

def emojiInput : String := "📝"

/-- The `color` chosen by the `switch level` in the Go `logMessage`. -/
def levelColor : String → String
  | "INFO" => colorMagenta
  | "WARNING" => colorYellow
  | "ERROR" => colorRed
  | "DEBUG" => colorCyan
  | "SUCCESS" => colorGreen
  | "USERINPUT" => colorReset
  | "LOADING" => colorCyan
  | _ => colorReset

/-- The `emoji` chosen by the `switch level` in the Go `logMessage` and
`slogMessage`; the default case leaves it the empty string. -/
def levelEmoji : String → String
  | "INFO" => emojiInfo
  | "WARNING" => emojiWarning
  | "ERROR" => emojiError
  | "DEBUG" => emojiDebug
  | "SUCCESS" => emojiSuccess
  | "USERINPUT" => emojiInput
  | "LOADING" => emojiLoading
  | _ => ""

/-- Go `logMessage(level, message)`: returns the line handed to
`log.Println` / `fmt.Print`, or `none` when `SuppressOutput` is set.
The line is `fmt.Sprintf("%s[%s]%s [%s] %s", color, timestamp,
colorReset, emoji, message)`, with `color` blanked when colors are
disabled. -/
def logMessage (cfg : Config) (timestamp level message : String) : Option String :=
  if cfg.SuppressOutput then none
  else
    let color := if cfg.ColorsEnabled then levelColor level else ""
    some (color ++ "[" ++ timestamp ++ "]" ++ colorReset ++ " [" ++ levelEmoji level ++ "] " ++ message)

/-- Go `slogMessage(level, message)`: the returned string,
`fmt.Sprintf("[%s] [%s] %s", timestamp, emoji, message)`, or `""` when
`SuppressOutput` is set. -/
def slogMessage (cfg : Config) (timestamp level message : String) : String :=
  if cfg.SuppressOutput then ""
  else "[" ++ timestamp ++ "] [" ++ levelEmoji level ++ "] " ++ message

/-- Go `Info(args...)`; `fmt.Sprint(args...)` is modelled by the already
joined `message`. -/
def Info (cfg : Config) (timestamp message : String) : Option String :=
  logMessage cfg timestamp "INFO" message

def Sinfo (cfg : Config) (timestamp message : String) : String :=
  slogMessage cfg timestamp "INFO" message

def Warning (cfg : Config) (timestamp message : String) : Option String :=
  logMessage cfg timestamp "WARNING" message

def Swarning (cfg : Config) (timestamp message : String) : String :=
  slogMessage cfg timestamp "WARNING" message

def Error (cfg : Config) (timestamp message : String) : Option String :=
  logMessage cfg timestamp "ERROR" message

def Serror (cfg : Config) (timestamp message : String) : String :=
  slogMessage cfg timestamp "ERROR" message

def Success (cfg : Config) (timestamp message : String) : Option String :=
  logMessage cfg timestamp "SUCCESS" message

def Ssuccess (cfg : Config) (timestamp message : String) : String :=
  slogMessage cfg timestamp "SUCCESS" message

/-- Go `Debug(args...)`: logs only when `DebugEnabled`. -/
def Debug (cfg : Config) (timestamp message : String) : Option String :=
  if cfg.DebugEnabled then logMessage cfg timestamp "DEBUG" message else none

/-- Go `Sdebug(args...)`: returns `""` unless `DebugEnabled`. -/
def Sdebug (cfg : Config) (timestamp message : String) : String :=
  if cfg.DebugEnabled then slogMessage cfg timestamp "DEBUG" message else ""

/-- Go `Debugf`: an outer `DebugEnabled` check around a call to `Debug`
on the formatted message (`fmt.Sprintf` modelled by the pre-formatted
`message`). -/
def Debugf (cfg : Config) (timestamp message : String) : Option String :=
  if cfg.DebugEnabled then Debug cfg timestamp message else none

/-- Go `Sdebugf`: an outer `DebugEnabled` check around a call to
`Sdebug`. -/
def Sdebugf (cfg : Config) (timestamp message : String) : String :=
  if cfg.DebugEnabled then Sdebug cfg timestamp message else ""

/-- The standard-input stream seen through a `bufio.Scanner`: the lines
that successive `Scan` calls produce, followed by either end of input
(`readErr = false`) or an underlying read error (`readErr = true`),
which surfaces — and is then reported by `scanner.Err()` — only once
scanning has consumed all of `lines`. -/
structure InputStream where
  lines : List String
  readErr : Bool
deriving DecidableEq, Repr

/-- Go `UserInput(prompt, userInput)`: one `Scan`; on success
`*userInput` is set to the line, then `scanner.Err()` is checked.
Returns the final value of `*userInput` (initially `orig`) and whether
an error was logged via `log.Println`. -/
def UserInput (stream : InputStream) (orig : String) : String × Bool :=
  match stream.lines with
  | [] => (orig, stream.readErr)
  | l :: _ => (l, false)

/-- The `for scanner.Scan()` loop of Go `MUserInput`: `input` starts
empty and accumulates `input += line + "\n"` for each line until an
empty line breaks the loop; the second component records whether the
loop ran off the end of the stream (so a trailing read error would be
seen by `scanner.Err()`). -/
def muserLoop (input : String) : List String → String × Bool
  | [] => (input, true)
  | l :: rest =>
    if l = "" then (input, false)
    else muserLoop (input ++ (l ++ "\n")) rest

/-- Go `MUserInput(prompt, userInput)`: runs the scan loop; when
`scanner.Err()` reports an error it logs and returns *before* the
assignment `*userInput = input`, leaving `orig` in place. Returns the
final value of `*userInput` and whether an error was logged. -/
def MUserInput (stream : InputStream) (orig : String) : String × Bool :=
  let r := muserLoop "" stream.lines
  if r.2 && stream.readErr then (orig, true)
  else (r.1, false)

/-- Go `Spinner`: `stopChan chan struct` modelled by whether the
channel has been closed, plus the display message. -/
structure Spinner where
  stopClosed : Bool
  message : String
deriving DecidableEq, Repr

/-- Go `NewSpinner(message)`: fresh (open) stop channel. -/
def NewSpinner (message : String) : Spinner :=
  { stopClosed := false, message := message }

/-- Go `Spinner.Stop`: `close(s.stopChan)` panics on an already-closed
channel (`none`); otherwise the channel closes and `"\r\n"` is
printed. -/
def Spinner.Stop (s : Spinner) : Option (Spinner × String) :=
  if s.stopClosed then none
  else some ({ s with stopClosed := true }, "\r\n")

/-- One iteration of the background goroutine started by
`Spinner.Start`: the `select` returns (no frame printed, `none`) once
the stop channel is closed, else prints the `slogMessage` of the
frame. -/
def Spinner.taskStep (cfg : Config) (timestamp : String) (s : Spinner) (frame : String) :
    Option String :=
  if s.stopClosed then none
  else some (slogMessage cfg timestamp "LOADING" (frame ++ " " ++ s.message ++ "\r"))

/-- Go `keyMap`: each binding holds the key strings it matches
(`key.WithKeys`). -/
structure keyMap where
  Up : List String
  Down : List String
  Enter : List String
  Quit : List String
deriving DecidableEq, Repr

/-- Go `newKeyMap()`. -/
def newKeyMap : keyMap :=
  { Up := ["up", "k"], Down := ["down", "j"], Enter := ["enter"],
    Quit := ["q", "esc", "ctrl+c"] }

/-- Go `key.Matches(msg, binding)`: the key string is one of the
binding's keys. -/
def keyMatches (k : String) (binding : List String) : Bool :=
  binding.contains k

/-- Go `option`: a (title, description) pair of the selector menu. -/
structure option where
  title : String
  desc : String
deriving DecidableEq, Repr

/-- Go `model`: the bubbletea model of the option selector. -/
structure model where
  options : List option
  cursor : Int
  selected : Int
  title : String
  keys : keyMap
  choice : String
  quitting : Bool
  width : Int
  height : Int
  centerItems : Bool
deriving DecidableEq, Repr

/-- The bubbletea messages `model.Update` inspects: window resizes and
key presses (a key press carried by its string form, e.g. `"down"`,
`"enter"`, `"q"`). -/
inductive Msg where
  | windowSize (w h : Int)
  | key (k : String)
deriving DecidableEq, Repr

/-- Go `initialModel(title, optionsDescs, centerItems)`.  The Go code
iterates over the `map[string]string`; the map is modelled by the
sequence of (key, value) pairs in the order that iteration yields
them. Unset Go fields take their zero values. -/
def initialModel (title : String) (optionsDescs : List (String × String))
    (centerItems : Bool) : model :=
  { options := optionsDescs.map fun p => { title := p.1, desc := p.2 }
    title := title
    keys := newKeyMap
    cursor := 0
    selected := -1
    centerItems := centerItems
    choice := ""
    quitting := false
    width := 0
    height := 0 }

/-- Go `model.Update(msg)`: returns the new model and whether the
returned command is `tea.Quit`.  The whole result is `none` when the
Go code would panic: the `Enter` branch indexes `m.options[m.cursor]`
with no bounds check, an out-of-range access when the cursor is not a
valid index. -/
def Update (m : model) (msg : Msg) : Option (model × Bool) :=
  match msg with
  | .windowSize w h => some ({ m with width := w, height := h }, false)
  | .key k =>
    if keyMatches k m.keys.Quit then
      some ({ m with quitting := true }, true)
    else if keyMatches k m.keys.Up then
      some ({ m with cursor := if m.cursor > 0 then m.cursor - 1 else m.cursor }, false)
    else if keyMatches k m.keys.Down then
      some ({ m with cursor :=
        if m.cursor < (m.options.length : Int) - 1 then m.cursor + 1 else m.cursor }, false)
    else if keyMatches k m.keys.Enter then
      if m.cursor < 0 then none
      else
        match m.options.get? m.cursor.toNat with
        | none => none
        | some opt =>
          some ({ m with selected := m.cursor, choice := opt.title, quitting := true }, true)
    else some (m, false)

/-- The event loop run by `tea.Program.Run`: feed events to `Update`
until it issues `tea.Quit` (or the event list is exhausted), returning
the final model; `none` models a panic inside `Update`. -/
def runLoop : model → List Msg → Option model
  | m, [] => some m
  | m, e :: es =>
    match Update m e with
    | none => none
    | some (m2, true) => some m2
    | some (m2, false) => runLoop m2 es

/-- Go `SelectOption(title, optionsDescs, centerItems)` driven by the
given event sequence: after the loop, if `selected != -1` the choice is
returned, otherwise the error `no option was selected`. -/
def SelectOption (title : String) (optionsDescs : List (String × String))
    (centerItems : Bool) (events : List Msg) : Option (Except String String) :=
  match runLoop (initialModel title optionsDescs centerItems) events with
  | none => none
  | some m =>
    some (if m.selected ≠ -1 then Except.ok m.choice
          else Except.error "no option was selected")

/-- Whether a message is a key press matching the `Enter` binding of
`newKeyMap`. -/
def isEnterKey : Msg → Bool
  | .key k => keyMatches k newKeyMap.Enter
  | .windowSize _ _ => false

/-! ### Helper lemmas -/

lemma foldl_append_eq (l : List String) :
    ∀ init : String, l.foldl (fun r s => r ++ s) init = init ++ String.join l := by
  induction l with
  | nil =>
    intro init
    simp [String.join]
  | cons s rest ih =>
    intro init
    show rest.foldl (fun r s => r ++ s) (init ++ s) = init ++ String.join (s :: rest)
    rw [ih (init ++ s)]
    show init ++ s ++ String.join rest = init ++ rest.foldl (fun r s => r ++ s) ("" ++ s)
    rw [ih ("" ++ s), String.append_assoc]
    simp

lemma join_cons_eq (s : String) (l : List String) :
    String.join (s :: l) = s ++ String.join l := by
  show l.foldl (fun r s => r ++ s) ("" ++ s) = s ++ String.join l
  rw [foldl_append_eq]
  simp

lemma muserLoop_fst (lines : List String) :
    ∀ input : String, (muserLoop input lines).1 =
      input ++ String.join ((lines.takeWhile fun l => l != "").map fun l => l ++ "\n") := by
  induction lines with
  | nil =>
    intro input
    simp [muserLoop, String.join]
  | cons l rest ih =>
    intro input
    by_cases hl : l = ""
    · subst hl
      simp [muserLoop, String.join]
    · have hb : (l != "") = true := by simp [hl]
      have hstep : muserLoop input (l :: rest) = muserLoop (input ++ (l ++ "\n")) rest := by
        simp [muserLoop, hl]
      rw [hstep, ih, @List.takeWhile_cons_of_pos String (fun s => s != "") l rest hb,
        List.map_cons, join_cons_eq, String.append_assoc]

lemma muserLoop_snd_of_no_empty (lines : List String)
    (h : ∀ l ∈ lines, l ≠ "") : ∀ input : String, (muserLoop input lines).2 = true := by
  induction lines with
  | nil =>
    intro input
    rfl
  | cons l rest ih =>
    intro input
    have hl : l ≠ "" := h l (by simp)
    simp only [muserLoop, if_neg hl]
    exact ih (fun x hx => h x (by simp [hx])) _

/-! ### Claims -/

/-- Claim C1: for every level and every message, when the global flag
`SuppressOutput` is true the logging call produces no output and the
string-returning variants (`Sinfo`, `Swarning`, `Serror`, `Sdebug`,
`Ssuccess`) return the empty string. -/
theorem suppress_silences_all_levels (cfg : Config) (ts level msg : String)
    (h : cfg.SuppressOutput = true) :
    logMessage cfg ts level msg = none ∧ slogMessage cfg ts level msg = "" ∧
    Sinfo cfg ts msg = "" ∧ Swarning cfg ts msg = "" ∧ Serror cfg ts msg = "" ∧
    Sdebug cfg ts msg = "" ∧ Ssuccess cfg ts msg = "" ∧
    Info cfg ts msg = none ∧ Warning cfg ts msg = none ∧ Error cfg ts msg = none ∧
    Debug cfg ts msg = none ∧ Success cfg ts msg = none := by
  simp [logMessage, slogMessage, Sinfo, Swarning, Serror, Sdebug, Ssuccess,
    Info, Warning, Error, Success, Debug, h]

/-- Witness for C1 at a concrete configuration and message. -/
theorem suppress_silences_all_levels_witness :
    logMessage { DebugEnabled := false, ColorsEnabled := true, SuppressOutput := true }
        "t" "INFO" "m" = none ∧
    slogMessage { DebugEnabled := false, ColorsEnabled := true, SuppressOutput := true }
        "t" "INFO" "m" = "" ∧
    Sinfo { DebugEnabled := false, ColorsEnabled := true, SuppressOutput := true } "t" "m" = "" ∧
    Swarning { DebugEnabled := false, ColorsEnabled := true, SuppressOutput := true } "t" "m" = "" ∧
    Serror { DebugEnabled := false, ColorsEnabled := true, SuppressOutput := true } "t" "m" = "" ∧
    Sdebug { DebugEnabled := false, ColorsEnabled := true, SuppressOutput := true } "t" "m" = "" ∧
    Ssuccess { DebugEnabled := false, ColorsEnabled := true, SuppressOutput := true } "t" "m" = "" ∧
    Info { DebugEnabled := false, ColorsEnabled := true, SuppressOutput := true } "t" "m" = none ∧
    Warning { DebugEnabled := false, ColorsEnabled := true, SuppressOutput := true } "t" "m" = none ∧
    Error { DebugEnabled := false, ColorsEnabled := true, SuppressOutput := true } "t" "m" = none ∧
    Debug { DebugEnabled := false, ColorsEnabled := true, SuppressOutput := true } "t" "m" = none ∧
    Success { DebugEnabled := false, ColorsEnabled := true, SuppressOutput := true } "t" "m" = none :=
  suppress_silences_all_levels
    { DebugEnabled := false, ColorsEnabled := true, SuppressOutput := true } "t" "INFO" "m" rfl

/-- Counterexample to claim C2 as stated: with `ColorsEnabled = false`
the logged line still contains an ANSI escape (the unconditional
`colorReset` after the timestamp bracket), here the escape character
U+001B. -/
theorem colors_off_line_has_escape :
    Char.ofNat 27 ∈
      ((logMessage { DebugEnabled := false, ColorsEnabled := false, SuppressOutput := false }
        "t" "INFO" "m").getD "").data := by
  decide

/-- Claim C2 (amended): when `ColorsEnabled` is true the logged line
wraps the timestamp bracket in the level's ANSI color (info=magenta,
warning=yellow, error=red, debug=cyan, success=green, user-input=the
reset code, i.e. no color) followed by a reset; when `ColorsEnabled`
is false the color prefix is empty but the line still contains the
ANSI reset escape after the timestamp bracket. -/
theorem timestamp_color_wrapping (cfg : Config) (ts msg : String)
    (h : cfg.SuppressOutput = false) :
    (cfg.ColorsEnabled = true →
      logMessage cfg ts "INFO" msg =
        some (colorMagenta ++ "[" ++ ts ++ "]" ++ colorReset ++ " [" ++ emojiInfo ++ "] " ++ msg) ∧
      logMessage cfg ts "WARNING" msg =
        some (colorYellow ++ "[" ++ ts ++ "]" ++ colorReset ++ " [" ++ emojiWarning ++ "] " ++ msg) ∧
      logMessage cfg ts "ERROR" msg =
        some (colorRed ++ "[" ++ ts ++ "]" ++ colorReset ++ " [" ++ emojiError ++ "] " ++ msg) ∧
      logMessage cfg ts "DEBUG" msg =
        some (colorCyan ++ "[" ++ ts ++ "]" ++ colorReset ++ " [" ++ emojiDebug ++ "] " ++ msg) ∧
      logMessage cfg ts "SUCCESS" msg =
        some (colorGreen ++ "[" ++ ts ++ "]" ++ colorReset ++ " [" ++ emojiSuccess ++ "] " ++ msg) ∧
      logMessage cfg ts "USERINPUT" msg =
        some (colorReset ++ "[" ++ ts ++ "]" ++ colorReset ++ " [" ++ emojiInput ++ "] " ++ msg)) ∧
    (cfg.ColorsEnabled = false → ∀ level : String,
      logMessage cfg ts level msg =
        some ("[" ++ ts ++ "]" ++ colorReset ++ " [" ++ levelEmoji level ++ "] " ++ msg)) := by
  constructor
  · intro hc
    simp [logMessage, h, hc, levelColor, levelEmoji]
  · intro hc level
    simp [logMessage, h, hc]

/-- Witness for C2 (amended) at concrete configurations. -/
theorem timestamp_color_wrapping_witness :
    logMessage { DebugEnabled := false, ColorsEnabled := true, SuppressOutput := false }
        "t" "INFO" "m" =
      some (colorMagenta ++ "[" ++ "t" ++ "]" ++ colorReset ++ " [" ++ emojiInfo ++ "] " ++ "m") ∧
    logMessage { DebugEnabled := false, ColorsEnabled := false, SuppressOutput := false }
        "t" "WARNING" "m" =
      some ("[" ++ "t" ++ "]" ++ colorReset ++ " [" ++ levelEmoji "WARNING" ++ "] " ++ "m") :=
  ⟨((timestamp_color_wrapping
      { DebugEnabled := false, ColorsEnabled := true, SuppressOutput := false }
      "t" "m" rfl).1 rfl).1,
   (timestamp_color_wrapping
      { DebugEnabled := false, ColorsEnabled := false, SuppressOutput := false }
      "t" "m" rfl).2 rfl "WARNING"⟩

/-- Counterexample to claim C3 as stated: after reading the partial
line `"a"` and then hitting a read error, `MUserInput` does not store
the partial data `"a\n"` in the caller-supplied output (it returns
before the assignment, leaving the old value — here `""`). -/
theorem muserinput_partial_discarded :
    (MUserInput { lines := ["a"], readErr := true } "").1 ≠ "a" ++ "\n" := by
  decide

/-- Claim C3 (amended): on an input-stream read error the error is
logged to the side channel, but the caller-supplied output is left
unchanged: `MUserInput` discards the partial data read before the
error, and `UserInput` stores nothing when no complete line was read
before the error. -/
theorem read_error_leaves_output (lines : List String) (orig : String)
    (h : ∀ l ∈ lines, l ≠ "") :
    MUserInput { lines := lines, readErr := true } orig = (orig, true) ∧
    UserInput { lines := [], readErr := true } orig = (orig, true) := by
  refine ⟨?_, rfl⟩
  have hc := muserLoop_snd_of_no_empty lines h ""
  simp [MUserInput, hc]

/-- Witness for C3 (amended): one partial line, then a read error. -/
theorem read_error_leaves_output_witness :
    MUserInput { lines := ["a"], readErr := true } "x" = ("x", true) ∧
    UserInput { lines := [], readErr := true } "x" = ("x", true) :=
  read_error_leaves_output ["a"] "x" (by decide)

/-- Claim C8: `MUserInput` reads lines until the first empty line (or
end of input) and stores the concatenation of each preceding line with
a trailing newline; in particular stdin `"a\nb\n\n"` (lines
`["a", "b", ""]`) yields `"a\nb\n"`. -/
theorem muserinput_concatenates_lines (lines : List String) (orig : String) :
    MUserInput { lines := lines, readErr := false } orig =
      (String.join ((lines.takeWhile fun l => l != "").map fun l => l ++ "\n"), false) ∧
    MUserInput { lines := ["a", "b", ""], readErr := false } orig = ("a\nb\n", false) := by
  constructor
  · simp [MUserInput, muserLoop_fst]
  · rfl

/-- Claim C9: when `DebugEnabled` is false, `Debug` and `Debugf`
produce no output and `Sdebug` and `Sdebugf` return the empty string;
when `DebugEnabled` is true and `SuppressOutput` is false they produce
the standard `[timestamp] [emoji] message` output (color-wrapped for
the printing variant). -/
theorem debug_gating (cfg : Config) (ts msg : String) :
    (cfg.DebugEnabled = false →
      Debug cfg ts msg = none ∧ Debugf cfg ts msg = none ∧
      Sdebug cfg ts msg = "" ∧ Sdebugf cfg ts msg = "") ∧
    (cfg.DebugEnabled = true → cfg.SuppressOutput = false →
      Debug cfg ts msg =
        some ((if cfg.ColorsEnabled then colorCyan else "") ++ "[" ++ ts ++ "]" ++ colorReset ++
          " [" ++ emojiDebug ++ "] " ++ msg) ∧
      Sdebug cfg ts msg = "[" ++ ts ++ "] [" ++ emojiDebug ++ "] " ++ msg) := by
  constructor
  · intro hd
    simp [Debug, Debugf, Sdebug, Sdebugf, hd]
  · intro hd hs
    simp [Debug, Sdebug, hd, logMessage, slogMessage, hs, levelColor, levelEmoji]

/-- Witness for C9 at concrete configurations. -/
theorem debug_gating_witness :
    (Debug { DebugEnabled := false, ColorsEnabled := true, SuppressOutput := false }
        "t" "m" = none ∧
      Debugf { DebugEnabled := false, ColorsEnabled := true, SuppressOutput := false }
        "t" "m" = none ∧
      Sdebug { DebugEnabled := false, ColorsEnabled := true, SuppressOutput := false }
        "t" "m" = "" ∧
      Sdebugf { DebugEnabled := false, ColorsEnabled := true, SuppressOutput := false }
        "t" "m" = "") ∧
    (Debug { DebugEnabled := true, ColorsEnabled := true, SuppressOutput := false }
        "t" "m" =
      some ((if true then colorCyan else "") ++ "[" ++ "t" ++ "]" ++ colorReset ++
        " [" ++ emojiDebug ++ "] " ++ "m") ∧
      Sdebug { DebugEnabled := true, ColorsEnabled := true, SuppressOutput := false }
        "t" "m" = "[" ++ "t" ++ "] [" ++ emojiDebug ++ "] " ++ "m") :=
  ⟨(debug_gating { DebugEnabled := false, ColorsEnabled := true, SuppressOutput := false }
      "t" "m").1 rfl,
   (debug_gating { DebugEnabled := true, ColorsEnabled := true, SuppressOutput := false }
      "t" "m").2 rfl rfl⟩

/-- Claim C4 (code bug): the selector is built from the Go map
`A ↦ descA, B ↦ descB`, whose iteration order is randomized at
runtime, so down-then-enter does not guarantee the choice `"B"`:
under the iteration order `[B, A]` the same events return `"A"`
(options[1] of the iteration order), while only the order `[A, B]`
returns the claimed `"B"`. Both executions evaluated here. -/
theorem select_down_enter_order_dependent :
    SelectOption "t" [("B", "descB"), ("A", "descA")] false
      [Msg.key "down", Msg.key "enter"] = some (Except.ok "A") ∧
    SelectOption "t" [("A", "descA"), ("B", "descB")] false
      [Msg.key "down", Msg.key "enter"] = some (Except.ok "B") := by
  exact ⟨rfl, rfl⟩

/-- Claim C5: the first `Stop` on a fresh spinner succeeds — it closes
the stop channel (so the background task's next step exits instead of
printing a frame) and emits `"\r\n"` — while a second `Stop` on the
same spinner closes an already-closed channel, an error (`none`). -/
theorem spinner_stop_twice_errors (cfg : Config) (ts message frame : String) :
    ∃ s', (NewSpinner message).Stop = some (s', "\r\n") ∧
      Spinner.taskStep cfg ts s' frame = none ∧ s'.Stop = none := by
  exact ⟨{ stopClosed := true, message := message }, rfl, rfl, rfl⟩

/-- Claim C10: from the selector built on an empty option map, an
enter key press makes `Update` index `options[cursor]` on an empty
list — an out-of-range access, modelled as `none`, not an ordinary
error return. -/
theorem enter_on_empty_options_out_of_range :
    Update (initialModel "t" [] false) (Msg.key "enter") = none := by
  rfl

lemma Update_inv (m : model) (e : Msg)
    (h0 : 0 ≤ m.cursor) (h1 : m.cursor < (m.options.length : Int)) :
    ∃ m' q, Update m e = some (m', q) ∧ m'.options = m.options ∧
      0 ≤ m'.cursor ∧ m'.cursor < (m.options.length : Int) := by
  cases e with
  | windowSize w h =>
    exact ⟨_, _, rfl, rfl, h0, h1⟩
  | key k =>
    simp only [Update]
    by_cases hq : keyMatches k m.keys.Quit
    · simp only [hq, if_true]
      exact ⟨_, _, rfl, rfl, h0, h1⟩
    · simp only [hq, if_false]
      by_cases hu : keyMatches k m.keys.Up
      · simp only [hu, if_true]
        refine ⟨_, _, rfl, rfl, ?_, ?_⟩ <;> dsimp only <;> split <;> omega
      · simp only [hu, if_false]
        by_cases hd : keyMatches k m.keys.Down
        · simp only [hd, if_true]
          refine ⟨_, _, rfl, rfl, ?_, ?_⟩ <;> dsimp only <;> split <;> omega
        · simp only [hd, if_false]
          by_cases he : keyMatches k m.keys.Enter
          · simp only [he, if_true]
            have hneg : ¬ m.cursor < 0 := by omega
            simp only [hneg, if_false]
            have hlt : m.cursor.toNat < m.options.length := by omega
            rw [List.get?_eq_get hlt]
            exact ⟨_, _, rfl, rfl, h0, h1⟩
          · simp only [he, if_false]
            exact ⟨_, _, rfl, rfl, h0, h1⟩

lemma runLoop_inv (events : List Msg) :
    ∀ m : model, 0 ≤ m.cursor → m.cursor < (m.options.length : Int) →
    ∃ m', runLoop m events = some m' ∧ m'.options = m.options ∧
      0 ≤ m'.cursor ∧ m'.cursor < (m.options.length : Int) := by
  induction events with
  | nil =>
    intro m h0 h1
    exact ⟨m, rfl, rfl, h0, h1⟩
  | cons e es ih =>
    intro m h0 h1
    obtain ⟨m2, q, hu, hopt, h0', h1'⟩ := Update_inv m e h0 h1
    cases q with
    | true =>
      exact ⟨m2, by simp [runLoop, hu], hopt, h0', h1'⟩
    | false =>
      obtain ⟨m', hrun, hopt', h0'', h1''⟩ := ih m2 h0' (hopt ▸ h1')
      exact ⟨m', by simp [runLoop, hu, hrun], hopt'.trans hopt, h0'',
        by rw [hopt] at h1''; exact h1''⟩

/-- Claim C6: starting from the initial model of a non-empty option
list, any finite sequence of key and resize events keeps the cursor in
`[0, len(options) - 1]`; moreover up decrements the cursor only when
it is positive and down increments it only when it is below
`len(options) - 1`. -/
theorem cursor_stays_in_range (title : String) (opts : List (String × String))
    (center : Bool) (events : List Msg) (m : model)
    (h : opts ≠ []) (hk : m.keys = newKeyMap) :
    (∃ m', runLoop (initialModel title opts center) events = some m' ∧
        0 ≤ m'.cursor ∧ m'.cursor ≤ (opts.length : Int) - 1) ∧
    Update m (Msg.key "up") =
      some ({ m with cursor := if m.cursor > 0 then m.cursor - 1 else m.cursor }, false) ∧
    Update m (Msg.key "down") =
      some ({ m with cursor :=
        if m.cursor < (m.options.length : Int) - 1 then m.cursor + 1 else m.cursor }, false) := by
  refine ⟨?_, ?_, ?_⟩
  · have hlen : 0 < opts.length := List.length_pos.mpr h
    have h1 : (0 : Int) < ((initialModel title opts center).options.length : Int) := by
      simp [initialModel]
      omega
    obtain ⟨m', hrun, hopt, h0', h1'⟩ :=
      runLoop_inv events (initialModel title opts center) (by simp [initialModel]) h1
    refine ⟨m', hrun, h0', ?_⟩
    have : (initialModel title opts center).options.length = opts.length := by
      simp [initialModel]
    omega
  · simp [Update, keyMatches, hk, newKeyMap]
  · simp [Update, keyMatches, hk, newKeyMap]

/-- Witness for C6 with two options and a single down event. -/
theorem cursor_stays_in_range_witness :
    (∃ m', runLoop (initialModel "t" [("A", "a"), ("B", "b")] false) [Msg.key "down"] =
        some m' ∧ 0 ≤ m'.cursor ∧
        m'.cursor ≤ (([("A", "a"), ("B", "b")] : List (String × String)).length : Int) - 1) ∧
    Update (initialModel "t" [("A", "a"), ("B", "b")] false) (Msg.key "up") =
      some ({ initialModel "t" [("A", "a"), ("B", "b")] false with cursor :=
        if (initialModel "t" [("A", "a"), ("B", "b")] false).cursor > 0 then
          (initialModel "t" [("A", "a"), ("B", "b")] false).cursor - 1
        else (initialModel "t" [("A", "a"), ("B", "b")] false).cursor }, false) ∧
    Update (initialModel "t" [("A", "a"), ("B", "b")] false) (Msg.key "down") =
      some ({ initialModel "t" [("A", "a"), ("B", "b")] false with cursor :=
        if (initialModel "t" [("A", "a"), ("B", "b")] false).cursor <
            ((initialModel "t" [("A", "a"), ("B", "b")] false).options.length : Int) - 1 then
          (initialModel "t" [("A", "a"), ("B", "b")] false).cursor + 1
        else (initialModel "t" [("A", "a"), ("B", "b")] false).cursor }, false) :=
  cursor_stays_in_range "t" [("A", "a"), ("B", "b")] false [Msg.key "down"]
    (initialModel "t" [("A", "a"), ("B", "b")] false) (by decide) rfl

lemma Update_no_enter (m : model) (e : Msg) (hk : m.keys = newKeyMap)
    (he : isEnterKey e = false) :
    ∃ m' q, Update m e = some (m', q) ∧ m'.keys = m.keys ∧ m'.selected = m.selected := by
  cases e with
  | windowSize w h =>
    exact ⟨_, _, rfl, rfl, rfl⟩
  | key k =>
    have hke : keyMatches k m.keys.Enter = false := by
      rw [hk]
      simpa [isEnterKey] using he
    simp only [Update]
    by_cases hq : keyMatches k m.keys.Quit
    · simp only [hq, if_true]
      exact ⟨_, _, rfl, rfl, rfl⟩
    · simp only [hq, if_false]
      by_cases hu : keyMatches k m.keys.Up
      · simp only [hu, if_true]
        exact ⟨_, _, rfl, rfl, rfl⟩
      · simp only [hu, if_false]
        by_cases hd : keyMatches k m.keys.Down
        · simp only [hd, if_true]
          exact ⟨_, _, rfl, rfl, rfl⟩
        · simp only [hd, if_false, hke, Bool.false_eq_true, if_false]
          exact ⟨_, _, rfl, rfl, rfl⟩

lemma runLoop_no_enter (events : List Msg) :
    ∀ m : model, m.keys = newKeyMap → (∀ e ∈ events, isEnterKey e = false) →
    ∃ m', runLoop m events = some m' ∧ m'.selected = m.selected := by
  induction events with
  | nil =>
    intro m _ _
    exact ⟨m, rfl, rfl⟩
  | cons e es ih =>
    intro m hk h
    obtain ⟨m2, q, hu, hkeys, hsel⟩ := Update_no_enter m e hk (h e (by simp))
    cases q with
    | true =>
      exact ⟨m2, by simp [runLoop, hu], hsel⟩
    | false =>
      obtain ⟨m', hrun, hsel'⟩ := ih m2 (hkeys.trans hk) (fun x hx => h x (by simp [hx]))
      exact ⟨m', by simp [runLoop, hu, hrun], hsel'.trans hsel⟩

/-- Claim C7: when the selector's event loop processes events none of
which is a confirm (enter) key — e.g. it terminates via the quit key —
the final model's selected index is still `-1` and `SelectOption`
returns the `no option was selected` error (with the empty-string Go
zero value for the choice). -/
theorem quit_without_selection_errors (title : String) (opts : List (String × String))
    (center : Bool) (events : List Msg)
    (h : ∀ e ∈ events, isEnterKey e = false) :
    ∃ m', runLoop (initialModel title opts center) events = some m' ∧ m'.selected = -1 ∧
      SelectOption title opts center events = some (Except.error "no option was selected") := by
  obtain ⟨m', hrun, hsel⟩ :=
    runLoop_no_enter events (initialModel title opts center) rfl h
  have hsel' : m'.selected = -1 := hsel
  refine ⟨m', hrun, hsel', ?_⟩
  simp [SelectOption, hrun, hsel']

/-- Witness for C7: down then quit, no enter. -/
theorem quit_without_selection_errors_witness :
    ∃ m', runLoop (initialModel "t" [("A", "a"), ("B", "b")] false)
        [Msg.key "down", Msg.key "q"] = some m' ∧ m'.selected = -1 ∧
      SelectOption "t" [("A", "a"), ("B", "b")] false [Msg.key "down", Msg.key "q"] =
        some (Except.error "no option was selected") :=
  quit_without_selection_errors "t" [("A", "a"), ("B", "b")] false
    [Msg.key "down", Msg.key "q"] (by decide)

end OnyLogger
